import Mathlib

/-!
# Verification of the SuperClaude adaptive recommendation core

A shallow embedding, in Lean 4, of the algorithmic core of the
`superclaude-auto-flags` repository, together with theorems settling the
frozen specification claims.

Python strings are modelled as lists of characters (`PyStr`); Python's
float arithmetic is modelled over `ℚ` where the computations are rational,
and over `ℝ` where `math.exp` is involved (the learning engine's recency
decay).  Python's `int(x)` (truncation toward zero) is `pyInt`/`pyIntR`.
Clock readings (`datetime.now()`, `time.time()`) are explicit parameters.
Fallible operations return `Except`.

Embedded modules:
* `claude_sc_preprocessor.py` — `PatternMatcher`, `SCCommandProcessor`;
* `learning/learning_engine.py` — `AdaptiveLearningEngine` scoring;
* `learning/learning_storage.py` — `update_pattern_success`,
  `get_user_interactions`;
* `learning/feedback_processor.py` — immediate/explicit/batch feedback;
* `learning/performance_optimizer.py` — flag adjustment and the
  recommendation cache.
-/

/-- Python strings as character lists: substring tests, `str.replace`,
`str.strip`, `str.lower` are all character-level operations here. -/
abbrev PyStr := List Char

/-- The whitespace characters stripped by Python's `str.strip()`. -/
def isPySpace (c : Char) : Bool :=
  c == ' ' || c == '\t' || c == '\n' || c == '\x0d' || c == '\x0b' || c == '\x0c'

/-- Python `str.lower()` (the source only lowercases ASCII and Korean text,
on which `Char.toLower` agrees with Python). -/
def pyLower (s : PyStr) : PyStr := s.map Char.toLower

/-- Python `str.strip()`: drop whitespace from both ends. -/
def pyStrip (s : PyStr) : PyStr :=
  ((s.dropWhile isPySpace).reverse.dropWhile isPySpace).reverse

/-- Python `int(q)` on a rational: truncation toward zero. -/
def pyInt (q : ℚ) : ℤ := if q < 0 then -⌊-q⌋ else ⌊q⌋

/-- Python `int(x)` on a real: truncation toward zero. -/
noncomputable def pyIntR (x : ℝ) : ℤ := if x < 0 then -⌊-x⌋ else ⌊x⌋

/-- Worker for `replaceAll`: scan the text left to right, replacing each
(non-overlapping) occurrence of `p :: ps` by `rep`, exactly like Python's
`str.replace` with a non-empty pattern.  The fuel argument (instantiated
with the text length, which bounds the number of recursive steps) keeps
the recursion structural. -/
def replaceAllGo (p : Char) (ps rep : PyStr) : ℕ → PyStr → PyStr
  | 0, s => s
  | _ + 1, [] => []
  | fuel + 1, c :: rest =>
    if (p :: ps).isPrefixOf (c :: rest) then
      rep ++ replaceAllGo p ps rep fuel (rest.drop ps.length)
    else
      c :: replaceAllGo p ps rep fuel rest

/-- Python `s.replace(pat, rep)` (for the non-empty patterns the source
uses). -/
def replaceAll (s pat rep : PyStr) : PyStr :=
  match pat with
  | [] => s
  | p :: ps => replaceAllGo p ps rep s.length s

/-- First-occurrence search: the suffix of `s` strictly after the first
occurrence of `pat`, or `none` when `pat` does not occur.  Used to model
`re.search` for the source's `(a|b).*(c|d)`-shaped regexes. -/
def afterFirst (pat : PyStr) : PyStr → Option PyStr
  | [] => none
  | c :: rest =>
    if pat.isPrefixOf (c :: rest) then some ((c :: rest).drop pat.length)
    else afterFirst pat rest

/-- `re.search` of a regex of the shape `(a₁|a₂).*(b₁|b₂)` (the only shape
occurring in `_load_orchestrator_patterns`): some first-group alternative
occurs, and some second-group alternative occurs after its end. -/
def seqMatches (alts1 alts2 : List PyStr) (text : PyStr) : Bool :=
  alts1.any fun a =>
    match afterFirst a text with
    | some rest => alts2.any fun b => decide (b <:+: rest)
    | none => false

-- ===================================================================
-- claude_sc_preprocessor.py
-- ===================================================================

/-- `ProjectContext` dataclass from `claude_sc_preprocessor.py`. -/
structure ProjectContext where
  project_type : PyStr
  domain : PyStr
  complexity : PyStr
  file_count : ℤ
  framework : Option PyStr := none
  language : Option PyStr := none
deriving DecidableEq

/-- `FlagRecommendation` dataclass (the `reasoning` f-string, which only
formats a display message, is not modelled). -/
structure FlagRecommendation where
  flags : PyStr
  confidence : ℤ
  mcp_servers : List PyStr
  personas : List PyStr
deriving DecidableEq

/-- One entry of the `patterns` table of `_get_default_rules`. -/
structure RulePattern where
  name : PyStr
  keywords : List PyStr
  base_flags : PyStr
  confidence : ℤ
  mcp_servers : List PyStr
deriving DecidableEq

/-- The `analyze_general` entry of `_get_default_rules`. -/
def analyzeGeneralRule : RulePattern :=
  { name := "analyze_general".data
  , keywords := ["analyze".data, "분석".data, "review".data, "검토".data]
  , base_flags := "--persona-analyzer --think".data
  , confidence := 85
  , mcp_servers := ["Sequential".data] }

/-- The `analyze_security` entry of `_get_default_rules`. -/
def analyzeSecurityRule : RulePattern :=
  { name := "analyze_security".data
  , keywords := ["security".data, "보안".data, "vulnerability".data, "취약점".data, "audit".data]
  , base_flags := "--persona-security --focus security --think --validate".data
  , confidence := 95
  , mcp_servers := ["Sequential".data] }

/-- The `analyze_performance` entry of `_get_default_rules`. -/
def analyzePerformanceRule : RulePattern :=
  { name := "analyze_performance".data
  , keywords := ["performance".data, "성능".data, "optimize".data, "최적화".data, "bottleneck".data]
  , base_flags := "--persona-performance --think-hard --focus performance".data
  , confidence := 90
  , mcp_servers := ["Sequential".data, "Playwright".data] }

/-- The `implement_ui` entry of `_get_default_rules`. -/
def implementUiRule : RulePattern :=
  { name := "implement_ui".data
  , keywords := ["component".data, "컴포넌트".data, "ui".data, "interface".data, "frontend".data]
  , base_flags := "--persona-frontend --magic --c7".data
  , confidence := 94
  , mcp_servers := ["Magic".data, "Context7".data] }

/-- The `implement_api` entry of `_get_default_rules`. -/
def implementApiRule : RulePattern :=
  { name := "implement_api".data
  , keywords := ["api".data, "endpoint".data, "backend".data, "server".data, "서버".data]
  , base_flags := "--persona-backend --seq --c7".data
  , confidence := 92
  , mcp_servers := ["Sequential".data, "Context7".data] }

/-- The `improve_quality` entry of `_get_default_rules`. -/
def improveQualityRule : RulePattern :=
  { name := "improve_quality".data
  , keywords := ["improve".data, "개선".data, "refactor".data, "리팩토링".data, "cleanup".data]
  , base_flags := "--persona-refactorer --loop --validate".data
  , confidence := 88
  , mcp_servers := ["Sequential".data] }

/-- `PatternMatcher._get_default_rules()['patterns']`, in declaration
(dict-insertion) order. -/
def defaultRules : List RulePattern :=
  [analyzeGeneralRule, analyzeSecurityRule, analyzePerformanceRule,
   implementUiRule, implementApiRule, improveQualityRule]

/-- One entry of `_load_orchestrator_patterns` (each source regex has the
shape `(a₁|a₂).*(b₁|b₂)`, recorded as its two alternative groups). -/
structure OrchestratorPattern where
  name : PyStr
  alts1 : List PyStr
  alts2 : List PyStr
  flags : PyStr
  confidence : ℤ
deriving DecidableEq

/-- `PatternMatcher._load_orchestrator_patterns`, in declaration order. -/
def orchestratorPatterns : List OrchestratorPattern :=
  [ { name := "analyze_architecture".data
    , alts1 := ["analyze".data, "분석".data]
    , alts2 := ["architecture".data, "아키텍처".data]
    , flags := "--persona-architect --ultrathink --seq".data
    , confidence := 95 }
  , { name := "security_audit".data
    , alts1 := ["security".data, "보안".data]
    , alts2 := ["audit".data, "감사".data]
    , flags := "--persona-security --ultrathink --seq --validate".data
    , confidence := 95 }
  , { name := "implement_auth".data
    , alts1 := ["implement".data, "구현".data]
    , alts2 := ["auth".data, "인증".data]
    , flags := "--persona-security --persona-backend --validate".data
    , confidence := 90 }
  , { name := "optimize_performance".data
    , alts1 := ["optimize".data, "최적화".data]
    , alts2 := ["performance".data, "성능".data]
    , flags := "--persona-performance --think-hard --play".data
    , confidence := 90 } ]

/-- `PatternMatcher._calculate_match_score`: fraction of the keywords
occurring (lowercased) in the lowercased text. -/
def calcMatchScore (text : PyStr) (keywords : List PyStr) : ℚ :=
  if keywords = [] then 0
  else (keywords.countP fun k => decide (pyLower k <:+: pyLower text)) / (keywords.length : ℚ)

/-- `PatternMatcher._apply_context_modifiers`. -/
def applyContextModifiers (base_flags : PyStr) (ctx : ProjectContext) : PyStr :=
  let f1 :=
    if ctx.complexity = "complex".data ∧ "--think".data <:+: base_flags ∧
        ¬ ("--think-hard".data <:+: base_flags) then
      replaceAll base_flags "--think".data "--think-hard".data
    else base_flags
  let f2 :=
    if ctx.project_type = "python_backend".data ∧
        ¬ ("--persona-backend".data <:+: f1) ∧ "analyze".data <:+: f1 then
      f1 ++ " --validate".data
    else f1
  let f3 := if ctx.file_count > 50 then f2 ++ " --delegate".data else f2
  f3 ++ " --uc".data

/-- `PatternMatcher._extract_mcp_servers`. -/
def extractMcpServers (flags : PyStr) : List PyStr :=
  (if "--seq".data <:+: flags ∨ "--sequential".data <:+: flags then ["Sequential".data] else []) ++
  (if "--c7".data <:+: flags ∨ "--context7".data <:+: flags then ["Context7".data] else []) ++
  (if "--magic".data <:+: flags then ["Magic".data] else []) ++
  (if "--play".data <:+: flags ∨ "--playwright".data <:+: flags then ["Playwright".data] else [])

/-- `PatternMatcher._extract_personas` (the `persona_map`, in dict order). -/
def extractPersonas (flags : PyStr) : List PyStr :=
  [ ("--persona-analyzer", "analyzer"), ("--persona-architect", "architect")
  , ("--persona-security", "security"), ("--persona-performance", "performance")
  , ("--persona-frontend", "frontend"), ("--persona-backend", "backend")
  , ("--persona-refactorer", "refactorer") ].filterMap fun fp =>
    if fp.1.data <:+: flags then some fp.2.data else none

/-- `PatternMatcher._get_default_recommendation`. -/
def defaultRecommendation (command : PyStr) (ctx : ProjectContext) : FlagRecommendation :=
  let fc : PyStr × ℤ :=
    if "analyze".data <:+: command then ("--persona-analyzer --think --uc".data, 70)
    else if "implement".data <:+: command then
      (if ctx.project_type = "python_backend".data then ("--persona-backend --c7 --uc".data, 75)
       else ("--persona-frontend --magic --uc".data, 75))
    else if "improve".data <:+: command then ("--persona-refactorer --think --uc".data, 70)
    else ("--think --uc".data, 60)
  { flags := fc.1, confidence := fc.2
  , mcp_servers := extractMcpServers fc.1, personas := extractPersonas fc.1 }

/-- The `priority_patterns` list of `find_best_match`. -/
def priorityPatternNames : List PyStr :=
  ["analyze_security".data, "analyze_performance".data, "analyze_architecture".data,
   "implement_authentication".data]

/-- Priority phase of `find_best_match`: the first priority name present in
the rules whose keyword score is positive (absent names are skipped, and a
present name with zero score falls through to the next — the loop `break`s
only when `score > 0`). -/
def findPriorityMatchAux (rules : List RulePattern) (full_text : PyStr) :
    List PyStr → Option (RulePattern × ℚ)
  | [] => none
  | nm :: rest =>
    match rules.find? (fun p => p.name == nm) with
    | some p =>
      let sc := calcMatchScore full_text p.keywords
      if sc > 0 then some (p, sc + 1/2) else findPriorityMatchAux rules full_text rest
    | none => findPriorityMatchAux rules full_text rest

def findPriorityMatch (rules : List RulePattern) (full_text : PyStr) :
    Option (RulePattern × ℚ) :=
  findPriorityMatchAux rules full_text priorityPatternNames

/-- The shared tail of `find_best_match` once a best rule pattern and its
score are fixed (`flags`/`confidence` computation at lines 170-178). -/
def buildRuleRecommendation (p : RulePattern) (highest : ℚ) (ctx : ProjectContext) :
    FlagRecommendation :=
  let flags := applyContextModifiers p.base_flags ctx
  { flags := flags
  , confidence := min 95 (pyInt ((p.confidence : ℚ) * (1/2 + highest * (1/2))))
  , mcp_servers := p.mcp_servers
  , personas := extractPersonas flags }

/-- `PatternMatcher.find_best_match`. -/
def findBestMatch (rules : List RulePattern) (command description : PyStr)
    (ctx : ProjectContext) : FlagRecommendation :=
  let full_text := pyLower (command ++ " ".data ++ description)
  match orchestratorPatterns.find? (fun op => seqMatches op.alts1 op.alts2 full_text) with
  | some op =>
    { flags := op.flags, confidence := op.confidence
    , mcp_servers := extractMcpServers op.flags, personas := extractPersonas op.flags }
  | none =>
    match findPriorityMatch rules full_text with
    | some (p, highest) => buildRuleRecommendation p highest ctx
    | none =>
      let best := rules.foldl
        (fun (acc : Option RulePattern × ℚ) p =>
          let sc := calcMatchScore full_text p.keywords
          if sc > acc.2 then (some p, sc) else acc)
        (none, 0)
      match best with
      | (some p, highest) => buildRuleRecommendation p highest ctx
      | (none, _) => defaultRecommendation command ctx

/-- `SCCommandProcessor.process`.  The `/sc:`-branch (command parsing,
filesystem-based project analysis, pattern matching and message
formatting, all wrapped in a `try` that falls back to the original input
on any exception) is abstracted as the `enhance` parameter, `none`
modelling the exception fallback; the guard that is claim-relevant is
embedded exactly. -/
def scProcess (enhance : PyStr → Option PyStr) (user_input : PyStr) : PyStr :=
  if "/sc:".data.isPrefixOf (pyStrip user_input) then
    (enhance user_input).getD user_input
  else
    user_input

-- ===================================================================
-- learning/learning_engine.py — AdaptiveLearningEngine
-- ===================================================================

/-- `LearningPattern` dataclass.  `last_updated` is an ISO timestamp in the
source; here it is the parsed timestamp in days (`none` models a string on
which `datetime.fromisoformat` raises, sending `_calculate_recency_score`
into its `except` branch). -/
structure LearningPattern where
  pattern_id : PyStr
  base_flags : PyStr
  success_rate : ℚ
  usage_count : ℕ
  confidence_score : ℚ
  context_weights : List (PyStr × ℚ)
  last_updated : Option ℤ
  user_preference_score : ℚ

/-- `RecommendationScore` dataclass (the `reasoning` display strings and
the `learning_factors` dict, which merely echo the factors below, are not
modelled). -/
structure RecommendationScore where
  pattern_id : PyStr
  flags : PyStr
  score : ℝ
  confidence : ℤ

/-- The `project_context` dict consumed by the engine; each field is
`none` when the corresponding key is absent (each call site substitutes
its own `.get` default). -/
structure EngCtx where
  project_size : Option PyStr := none
  file_count : Option ℤ := none
  languages : Option (List PyStr) := none
  frameworks : Option (List PyStr) := none

/-- Python `dict.get` on a string-keyed dict modelled as an association
list (keys are unique, so first match is the value). -/
def pyDictGet (d : List (PyStr × ℚ)) (k : PyStr) : Option ℚ :=
  (d.find? fun p => p.1 == k).map (·.2)

/-- `AdaptiveLearningEngine._calculate_context_similarity`. -/
def contextSimilarity (pattern_context : List (PyStr × ℚ)) (ctx : EngCtx) : ℚ :=
  if pattern_context = [] then 1/2
  else
    let sizeKey := "size_".data ++ ctx.project_size.getD "unknown".data
    let acc1 : ℚ × ℚ :=
      match pyDictGet pattern_context sizeKey with
      | some w => (w * (3/10), 3/10)
      | none => (0, 0)
    let acc2 : ℚ × ℚ := (ctx.languages.getD []).foldl
      (fun acc lang =>
        match pyDictGet pattern_context ("lang_".data ++ lang) with
        | some w => (acc.1 + w * (2/5), acc.2 + 2/5)
        | none => acc) acc1
    let acc3 : ℚ × ℚ := (ctx.frameworks.getD []).foldl
      (fun acc fw =>
        match pyDictGet pattern_context ("framework_".data ++ fw) with
        | some w => (acc.1 + w * (3/10), acc.2 + 3/10)
        | none => acc) acc2
    if acc3.2 > 0 then acc3.1 / acc3.2 else 1/2

/-- `AdaptiveLearningEngine._calculate_recency_score`; `now` is the
current clock reading in days, matching `(now - updated_time).days`. -/
noncomputable def recencyScore (now : ℤ) : Option ℤ → ℝ
  | none => 1/2
  | some t => if now - t ≤ 30 then 1 else Real.exp (-((now - t : ℤ) : ℝ) / 60)

/-- `AdaptiveLearningEngine._calculate_confidence_score`. -/
def calcConfidenceScore (usage_count : ℕ) (success_rate : ℚ) : ℚ :=
  min (success_rate * min ((usage_count : ℚ) / 20) 1) 1

/-- `AdaptiveLearningEngine._calculate_adaptive_score`: the five weighted
factors summed into the total score, and the confidence percentage
`min(95, int(total_score))`. -/
noncomputable def calcAdaptiveScore (now : ℤ) (p : LearningPattern) (ctx : EngCtx) :
    RecommendationScore :=
  let success_score : ℚ := p.success_rate * 40
  let preference_score : ℚ := min p.user_preference_score 2 * 10
  let context_score : ℚ := contextSimilarity p.context_weights ctx * 20
  let confidence_score : ℚ := p.confidence_score * 10
  let recency_score : ℝ := recencyScore now p.last_updated * 10
  let total_score : ℝ :=
    ((success_score + preference_score + context_score + confidence_score : ℚ) : ℝ) +
      recency_score
  { pattern_id := p.pattern_id
  , flags := p.base_flags
  , score := total_score
  , confidence := min 95 (pyIntR total_score) }

/-- The source idiom `if cond: if flag not in flags: flags += ' ' + flag`
shared by the guarded appends of
`AdaptiveLearningEngine._adjust_flags_for_context`. -/
def guardAppend (cond : Prop) [Decidable cond] (pat : PyStr) (flags : PyStr) : PyStr :=
  if cond ∧ ¬ (pat <:+: flags) then flags ++ (' ' :: pat) else flags

/-- `AdaptiveLearningEngine._adjust_flags_for_context` (each appended flag
is guarded by a `not in` check, and the result is `strip()`ped). -/
def adjustFlagsLE (base_flags : PyStr) (ctx : EngCtx) : PyStr :=
  let project_size := ctx.project_size.getD "small".data
  let file_count := ctx.file_count.getD 0
  let f1 := guardAppend
    (project_size = "large".data ∨ project_size = "very_large".data ∨ file_count > 50)
    "--delegate".data base_flags
  let f2 := guardAppend (project_size = "very_large".data ∨ file_count > 100)
    "--uc".data f1
  let f3 := guardAppend ("python".data ∈ ctx.languages.getD [])
    "--validate".data f2
  let f4 := guardAppend
    (((ctx.frameworks.getD []).any fun fw =>
        fw == "react".data || fw == "vue".data || fw == "angular".data) = true)
    "--magic".data f3
  pyStrip f4

/-- `AdaptiveLearningEngine._get_fallback_recommendation` (its `score`
field is set to the confidence value, as in the source). -/
noncomputable def fallbackRecommendation (command : PyStr) : RecommendationScore :=
  let fc : PyStr × ℤ :=
    if command = "analyze".data then ("--persona-analyzer --think --uc".data, 70)
    else if command = "implement".data then ("--persona-backend --c7 --uc".data, 65)
    else if command = "improve".data then ("--persona-refactorer --think --uc".data, 68)
    else ("--think --uc".data, 60)
  { pattern_id := command ++ "_fallback".data
  , flags := fc.1
  , score := (fc.2 : ℝ)
  , confidence := fc.2 }

/-- Python dict-comprehension semantics for
`{p.pattern_id: p for p in candidates}`: a key keeps its first-insertion
position but its last-assigned value. -/
def dictInsertPattern (acc : List LearningPattern) (p : LearningPattern) :
    List LearningPattern :=
  if acc.any fun q => q.pattern_id == p.pattern_id then
    acc.map fun q => if q.pattern_id == p.pattern_id then p else q
  else
    acc ++ [p]

/-- `AdaptiveLearningEngine._find_candidate_patterns`: command-name and
context-similarity filters over the pattern cache, deduplicated by
pattern id. -/
def findCandidatePatterns (patterns : List LearningPattern) (command : PyStr)
    (ctx : EngCtx) : List LearningPattern :=
  let c1 := patterns.filter fun p =>
    decide (command <:+: p.pattern_id) || "_general".data.isSuffixOf p.pattern_id
  let c2 := patterns.filter fun p => decide (contextSimilarity p.context_weights ctx > 1/2)
  (c1 ++ c2).foldl dictInsertPattern []

open Classical in
/-- Python's `max(scored, key=lambda x: x.score)`: the first element of
maximal score (strict comparison keeps the earlier element on ties). -/
noncomputable def pickBestScore (scored : List RecommendationScore) :
    Option RecommendationScore :=
  scored.foldl
    (fun acc s =>
      match acc with
      | none => some s
      | some b => if s.score > b.score then some s else some b)
    none

/-- `AdaptiveLearningEngine.get_adaptive_recommendation` over a loaded
pattern cache (`patterns` is the `_pattern_cache` contents, which
`_load_patterns_cache` derives from the storage snapshot; `now` is the
clock reading used by the recency factor).  The `description` argument is
accepted and ignored by `_find_candidate_patterns`, exactly as in the
source. -/
noncomputable def getAdaptiveRecommendation (now : ℤ) (patterns : List LearningPattern)
    (command : PyStr) (_description : PyStr) (ctx : EngCtx) : RecommendationScore :=
  match pickBestScore ((findCandidatePatterns patterns command ctx).map
      fun p => calcAdaptiveScore now p ctx) with
  | some best => { best with flags := adjustFlagsLE best.flags ctx }
  | none => fallbackRecommendation command

/-- Modelled from the spec: the specification's confidence formula
`confidence = min(95, round(total_score))`, to be compared with the
source's `min(95, int(total_score))`. -/
noncomputable def specConfidence (total_score : ℝ) : ℤ :=
  min 95 (round total_score)

-- ===================================================================
-- learning/learning_storage.py — LearningStorage
-- ===================================================================

/-- A row of the `pattern_success` table (the `last_updated` clock string
and the `context_conditions` JSON blob do not enter any claim and are
omitted). -/
structure PatternSuccess where
  total_uses : ℕ
  successful_uses : ℕ
  success_rate : ℚ
deriving DecidableEq

/-- `LearningStorage.update_pattern_success`: increment the counters of
the existing row (or create a fresh row) and recompute `success_rate`
from the counters. -/
def updatePatternSuccess (existing : Option PatternSuccess) (success : Bool) :
    PatternSuccess :=
  match existing with
  | some r =>
    let total_uses := r.total_uses + 1
    let successful_uses := if success then r.successful_uses + 1 else r.successful_uses
    { total_uses := total_uses
    , successful_uses := successful_uses
    , success_rate := (successful_uses : ℚ) / (total_uses : ℚ) }
  | none =>
    let total_uses := 1
    let successful_uses := if success then 1 else 0
    { total_uses := total_uses
    , successful_uses := successful_uses
    , success_rate := (successful_uses : ℚ) / (total_uses : ℚ) }

/-- The row invariant stated by the spec (§3 Pattern). -/
def psInv (r : PatternSuccess) : Prop :=
  r.successful_uses ≤ r.total_uses ∧
    r.success_rate = (r.successful_uses : ℚ) / (r.total_uses : ℚ)

/-- `n` consecutive `update_pattern_success(name, True, ...)` calls. -/
def iterateSuccess (r : PatternSuccess) (n : ℕ) : PatternSuccess :=
  (fun x => updatePatternSuccess (some x) true)^[n] r

/-- A row of the `interactions` table; the ISO `timestamp` is modelled as
an integer time. -/
structure InteractionRow where
  id : ℕ
  timestamp : ℤ
  command : PyStr
  recommended_flags : PyStr
  success : Bool
  execution_time : ℚ
  confidence : ℤ
  user_id : String
  project_hash : String

/-- Errors surfacing from the sqlite layer. -/
inductive StorageError where
  | databaseError
deriving DecidableEq

/-- The backing store as seen through `sqlite3.connect(...).execute`: a
healthy file answers queries with its rows; a corrupted or unreadable
file raises `sqlite3.DatabaseError` / `sqlite3.OperationalError`. -/
inductive DBState where
  | healthy (rows : List InteractionRow)
  | corrupted

/-- One `connect + SELECT * FROM interactions` round-trip. -/
def dbSelectInteractions : DBState → Except StorageError (List InteractionRow)
  | .healthy rows => .ok rows
  | .corrupted => .error .databaseError

/-- `LearningStorage.get_user_interactions`: filter the caller's rows
newer than the cutoff, ordered by timestamp descending.  The body wraps
no exception handler around the sqlite calls, so a storage error
propagates to the caller. -/
def getUserInteractions (db : DBState) (user_id : String) (since : ℤ) :
    Except StorageError (List InteractionRow) := do
  let rows ← dbSelectInteractions db
  let selected := rows.filter fun r => r.user_id == user_id && decide (r.timestamp > since)
  .ok (selected.mergeSort fun a b => decide (b.timestamp ≤ a.timestamp))

-- ===================================================================
-- learning/feedback_processor.py — FeedbackProcessor
-- ===================================================================

/-- The names bound at module level in `feedback_processor.py` (its
imports and its own top-level definitions).  `os` is not among them: the
module never imports `os` although lines 102 and 152 evaluate
`os.getcwd()`. -/
def feedbackProcessorGlobals : List String :=
  ["json", "time", "datetime", "timedelta", "Dict", "List", "Optional", "Any", "Tuple",
   "dataclass", "asdict", "Enum", "defaultdict",
   "LearningStorage", "FeedbackRecord", "get_learning_storage",
   "PersonalizedAdaptiveRecommender", "get_personalized_recommender",
   "FeedbackType", "ProcessedFeedback", "FeedbackAnalysis", "FeedbackProcessor",
   "get_feedback_processor"]

/-- A Python runtime error crossing a call boundary. -/
inductive PyError where
  | nameError (name : String)
deriving DecidableEq

/-- Evaluating a global name inside `feedback_processor.py`: raises
`NameError` when the name is not bound in the module. -/
def evalFeedbackGlobal (name : String) : Except PyError Unit :=
  if feedbackProcessorGlobals.contains name then .ok () else .error (.nameError name)

/-- `FeedbackType` enum. -/
inductive FeedbackType where
  | implicitSuccess
  | implicitFailure
  | explicitRating
  | userCorrection
  | performanceFeedback
deriving DecidableEq

/-- The `feedback_weights` table of `FeedbackProcessor.__init__`. -/
def feedbackWeight : FeedbackType → ℚ
  | .implicitSuccess => 3/10
  | .implicitFailure => 2/5
  | .explicitRating => 1
  | .userCorrection => 6/5
  | .performanceFeedback => 3/5

/-- `FeedbackProcessor._classify_implicit_feedback` (the 2-second
`implicit_feedback_threshold`; `error_details` is unused by the source
body). -/
def classifyImplicitFeedback (success : Bool) (execution_time : ℚ)
    (_error_details : Option String) : FeedbackType :=
  if success then
    if execution_time < 2 then .implicitSuccess else .performanceFeedback
  else .implicitFailure

/-- `FeedbackProcessor._calculate_learning_weight`. -/
def calcLearningWeight (ft : FeedbackType) (success : Bool) (execution_time : ℚ) : ℚ :=
  let base_weight := feedbackWeight ft
  let success_multiplier : ℚ := if success then 1 else 7/10
  let time_multiplier : ℚ :=
    if execution_time < 5 then 6/5 else if execution_time > 60 then 4/5 else 1
  base_weight * success_multiplier * time_multiplier

/-- `FeedbackProcessor._calculate_confidence_impact` (the 0.05
`confidence_adjustment_factor`). -/
def calcConfidenceImpact (ft : FeedbackType) (_success : Bool) (execution_time : ℚ) : ℚ :=
  let base_impact : ℚ := 1/20
  match ft with
  | .implicitSuccess => base_impact * (1/2)
  | .implicitFailure => -base_impact * (4/5)
  | .performanceFeedback =>
    if execution_time > 30 then -base_impact * (3/10) else base_impact * (1/5)
  | _ => 0

/-- Python whitespace split, `str.split()` with no argument. -/
def pySplitWs (s : PyStr) : List PyStr :=
  ((s.splitOnP fun c => isPySpace c).filter fun w => ¬ w.isEmpty)

/-- Insert into a string-keyed dict modelled as an association list:
existing keys keep their position and take the new value, new keys append. -/
def pyDictSet (d : List (PyStr × ℚ)) (k : PyStr) (v : ℚ) : List (PyStr × ℚ) :=
  if d.any fun p => p.1 == k then
    d.map fun p => if p.1 == k then (k, v) else p
  else
    d ++ [(k, v)]

/-- `FeedbackProcessor._success_to_rating`. -/
def successToRating (success : Bool) (execution_time : ℚ) : ℤ :=
  if ¬ success then 1
  else if execution_time < 10 then 5
  else if execution_time < 30 then 4
  else if execution_time < 60 then 3
  else 2

/-- `FeedbackProcessor._determine_pattern_adjustments`: locate the target
interaction among the last day's rows, then accumulate per-flag
adjustments into the `adjustments` dict. -/
def determinePatternAdjustments (interactions : List InteractionRow)
    (interaction_id : String) (_ft : FeedbackType) (success : Bool)
    (execution_time : ℚ) : List (PyStr × ℚ) :=
  match interactions.find? fun i => toString i.id == interaction_id with
  | none => []
  | some target =>
    (pySplitWs target.recommended_flags).foldl
      (fun adjustments flag =>
        if "--persona-".data.isPrefixOf flag then
          let persona := replaceAll flag "--persona-".data []
          if success then
            pyDictSet adjustments ("persona_".data ++ persona ++ "_boost".data) (1/10)
          else
            pyDictSet adjustments ("persona_".data ++ persona ++ "_penalty".data) (-(1/20))
        else if "--think".data.isPrefixOf flag then
          let thinking_level := replaceAll flag "--".data []
          if execution_time > 60 then
            pyDictSet adjustments (thinking_level ++ "_performance_penalty".data) (-(1/10))
          else if success ∧ execution_time < 30 then
            pyDictSet adjustments (thinking_level ++ "_performance_boost".data) (1/20)
          else adjustments
        else adjustments)
      []

/-- The nested `personalization_updates` dicts, as category-keyed dicts of
numeric entries. -/
abbrev PersonalizationUpdates := List (String × List (String × ℚ))

/-- `FeedbackProcessor._prepare_personalization_updates`. -/
def preparePersonalizationUpdates (_interaction_id : String) (ft : FeedbackType)
    (success : Bool) : PersonalizationUpdates :=
  let preference_adjustments :=
    if success then [("success_reinforcement", (1/10 : ℚ))]
    else [("failure_adjustment", (-(1/20) : ℚ))]
  let confidence_updates :=
    match ft with
    | .implicitSuccess => [("implicit_success_boost", (1/50 : ℚ))]
    | .implicitFailure => [("implicit_failure_penalty", (-(3/100) : ℚ))]
    | _ => []
  [("preference_adjustments", preference_adjustments),
   ("confidence_updates", confidence_updates),
   ("pattern_reinforcements", [])]

/-- `ProcessedFeedback` dataclass. -/
structure ProcessedFeedback where
  feedback_id : String
  feedback_type : FeedbackType
  learning_weight : ℚ
  confidence_impact : ℚ
  pattern_adjustments : List (PyStr × ℚ)
  personalization_updates : PersonalizationUpdates

/-- `FeedbackProcessor.process_immediate_feedback`.  The body classifies
the feedback and computes its weights, then builds the `FeedbackRecord`,
whose `project_hash` field evaluates `os.getcwd()` — and `os` is not a
module global, so the construction raises `NameError`.  `interactions` is
the storage's answer to the `get_user_interactions(days=1)` lookup inside
`_determine_pattern_adjustments`; `now` is the clock. -/
def processImmediateFeedback (now : ℤ) (interactions : List InteractionRow)
    (interaction_id : String) (success : Bool) (execution_time : ℚ)
    (error_details : Option String) : Except PyError ProcessedFeedback := do
  let feedback_type := classifyImplicitFeedback success execution_time error_details
  let learning_weight := calcLearningWeight feedback_type success execution_time
  let confidence_impact := calcConfidenceImpact feedback_type success execution_time
  let pattern_adjustments :=
    determinePatternAdjustments interactions interaction_id feedback_type success
      execution_time
  let personalization_updates :=
    preparePersonalizationUpdates interaction_id feedback_type success
  let _rating := successToRating success execution_time
  let _ ← evalFeedbackGlobal "os"
  .ok
    { feedback_id := interaction_id ++ "_" ++ toString now
    , feedback_type := feedback_type
    , learning_weight := learning_weight
    , confidence_impact := confidence_impact
    , pattern_adjustments := pattern_adjustments
    , personalization_updates := personalization_updates }

/-- `FeedbackProcessor._calculate_explicit_confidence_impact`. -/
def calcExplicitConfidenceImpact (user_rating : ℤ) (user_correction : Option String) : ℚ :=
  let rating_impact : ℚ := ((user_rating : ℚ) - 3) * (1/10)
  let correction_penalty : ℚ := if user_correction.isSome then -(3/20) else 0
  rating_impact + correction_penalty

/-- `FeedbackProcessor._process_explicit_pattern_adjustments`. -/
def processExplicitPatternAdjustments (_interaction_id : String) (user_rating : ℤ)
    (user_correction : Option String) : List (PyStr × ℚ) :=
  let a1 : List (PyStr × ℚ) :=
    if user_rating ≥ 4 then [("explicit_positive_reinforcement".data, 1/5)]
    else if user_rating ≤ 2 then [("explicit_negative_adjustment".data, -(3/10))]
    else []
  match user_correction with
  | none => a1
  | some corr =>
    let a2 := a1 ++ [("user_correction_learning".data, (1/2 : ℚ))]
    if "--".data <:+: corr.data then a2 ++ [("user_suggested_flags".data, (3/10 : ℚ))]
    else a2

/-- `FeedbackProcessor._process_explicit_personalization_updates`. -/
def processExplicitPersonalizationUpdates (_interaction_id : String) (user_rating : ℤ)
    (_user_correction : Option String) : PersonalizationUpdates :=
  let preference_adjustments :=
    if user_rating ≥ 4 then [("strong_positive", (3/10 : ℚ))]
    else if user_rating ≤ 2 then [("strong_negative", (-(1/5) : ℚ))]
    else []
  [("preference_adjustments", preference_adjustments),
   ("confidence_updates", []),
   ("learning_signals", [("explicit_feedback_weight", (user_rating : ℚ) / 5)])]

/-- `FeedbackProcessor.process_explicit_feedback`: like the immediate
path, the `FeedbackRecord` construction evaluates the unbound global
`os`. -/
def processExplicitFeedback (now : ℤ) (interaction_id : String) (user_rating : ℤ)
    (user_correction : Option String) : Except PyError ProcessedFeedback := do
  let feedback_type : FeedbackType :=
    if user_correction.isSome then .userCorrection else .explicitRating
  let learning_weight := feedbackWeight feedback_type * ((user_rating : ℚ) / 5)
  let confidence_impact := calcExplicitConfidenceImpact user_rating user_correction
  let pattern_adjustments :=
    processExplicitPatternAdjustments interaction_id user_rating user_correction
  let personalization_updates :=
    processExplicitPersonalizationUpdates interaction_id user_rating user_correction
  let _ ← evalFeedbackGlobal "os"
  .ok
    { feedback_id := interaction_id ++ "_explicit_" ++ toString now
    , feedback_type := feedback_type
    , learning_weight := learning_weight
    , confidence_impact := confidence_impact
    , pattern_adjustments := pattern_adjustments
    , personalization_updates := personalization_updates }

/-- `FeedbackProcessor._is_feedback_processed` — the source returns
`False` unconditionally ("simply return False here; really needs to check
the processing history"). -/
def isFeedbackProcessed (_interaction_id : String) : Bool :=
  false

/-- `FeedbackProcessor._calculate_performance_score`. -/
def calcPerformanceScore (success : Bool) (execution_time : ℚ) : ℚ :=
  let success_score : ℚ := if success then 1 else 0
  let time_score : ℚ :=
    if execution_time > 0 then max 0 (min 1 ((30 - execution_time) / 30)) else 1/2
  success_score * (7/10) + time_score * (3/10)

/-- `FeedbackProcessor._calculate_confidence_accuracy`. -/
def calcConfidenceAccuracy (success : Bool) (confidence : ℤ) : ℚ :=
  let expected_success_prob : ℚ := (confidence : ℚ) / 100
  let actual_success : ℚ := if success then 1 else 0
  1 - |expected_success_prob - actual_success|

/-- `FeedbackProcessor._calculate_learning_value`. -/
def calcLearningValue (i : InteractionRow) : ℚ :=
  let base_value : ℚ := 1/2
  let success_value : ℚ := if i.success then 3/10 else 2/5
  let time_value : ℚ := if i.execution_time > 0 then 1/5 else 0
  let accuracy_value : ℚ := 3/10 * (1 - calcConfidenceAccuracy i.success i.confidence)
  base_value + success_value + time_value + accuracy_value

/-- The per-interaction analysis dict built by
`FeedbackProcessor._analyze_interaction_for_batch_processing`. -/
structure BatchAnalysis where
  performance_score : ℚ
  confidence_accuracy : ℚ
  learning_value : ℚ

/-- `FeedbackProcessor._analyze_interaction_for_batch_processing`:
interactions with no recorded execution time are skipped. -/
def analyzeInteractionForBatch (i : InteractionRow) : Option BatchAnalysis :=
  if i.execution_time = 0 then none
  else some
    { performance_score := calcPerformanceScore i.success i.execution_time
    , confidence_accuracy := calcConfidenceAccuracy i.success i.confidence
    , learning_value := calcLearningValue i }

/-- `FeedbackProcessor._create_batch_processed_feedback`. -/
def createBatchProcessedFeedback (now : ℤ) (i : InteractionRow) (a : BatchAnalysis) :
    ProcessedFeedback :=
  let confidence_impact := a.confidence_accuracy * (1/20)
  { feedback_id := "batch_" ++ toString i.id ++ "_" ++ toString now
  , feedback_type := .performanceFeedback
  , learning_weight := a.learning_value
  , confidence_impact := confidence_impact
  , pattern_adjustments :=
      [("batch_performance_adjustment".data, a.performance_score * (1/10)),
       ("batch_confidence_adjustment".data, confidence_impact)]
  , personalization_updates := [("batch_learning", [("weight", a.learning_value)])] }

/-- `FeedbackProcessor.process_batch_feedback` over the window of
interactions returned by `get_user_interactions(days=days)`: every
interaction not flagged by `_is_feedback_processed` is (re)processed.
The run itself persists nothing (`_apply_batch_updates` only logs), so a
second run sees the same window and the same `_is_feedback_processed`
stub. -/
def processBatchFeedback (now : ℤ) (interactions : List InteractionRow) :
    List ProcessedFeedback :=
  interactions.filterMap fun i =>
    if isFeedbackProcessed (toString i.id) then none
    else (analyzeInteractionForBatch i).map fun a => createBatchProcessedFeedback now i a

/-- The averaged per-key adjustments printed by
`FeedbackProcessor._apply_batch_updates` (keys in first-appearance
order). -/
def batchUpdates (fbs : List ProcessedFeedback) : List (PyStr × ℚ) :=
  let pairs := fbs.flatMap (·.pattern_adjustments)
  let keys := (pairs.map (·.1)).eraseDups
  keys.map fun k =>
    let values := (pairs.filter fun p => p.1 == k).map (·.2)
    (k, values.sum / (values.length : ℚ))

-- ===================================================================
-- learning/performance_optimizer.py — PerformanceOptimizer
-- ===================================================================

/-- The `context` dict consumed by the optimizer (fields `none` when the
key is absent). -/
structure OptCtx where
  complexity : Option PyStr := none
  file_count : Option ℤ := none
  project_type : Option PyStr := none

/-- The `--think` → `--think-hard` elevation shared by
`PerformanceOptimizer._adjust_flags_for_context` (with `K` the
`complexity == 'complex'` test). -/
def thinkReplaceStep (K : Prop) [Decidable K] (f : PyStr) : PyStr :=
  if K ∧ "--think".data <:+: f ∧ ¬ ("--think-hard".data <:+: f) then
    replaceAll f "--think".data "--think-hard".data
  else f

/-- `PerformanceOptimizer._adjust_flags_for_context`: elevate `--think`
under complex contexts, then append `--delegate` (guarded by a `not in`
check) for large file counts. -/
def adjustFlagsPO (base_flags : PyStr) (ctx : OptCtx) : PyStr :=
  guardAppend (ctx.file_count.getD 0 > 50) "--delegate".data
    (thinkReplaceStep (ctx.complexity.getD "moderate".data = "complex".data) base_flags)

/-- A `pattern_cache` entry: the dict stored by `_cache_recommendation`
(`flags`, `confidence`, `timestamp`) plus the keys that
`_update_enhanced_cache` merges in later (absent at creation). -/
structure CacheEntry where
  flags : PyStr
  confidence : ℤ
  timestamp : ℤ
  enhanced_flags : Option PyStr := none
  enhanced_confidence : Option ℤ := none
  enhancement_reasoning : Option String := none
  enhanced : Bool := false

/-- `PerformanceOptimizer._cache_recommendation`: the entry stored for a
key when the quick recommendation is first computed. -/
def cacheRecommendation (flags : PyStr) (confidence : ℤ) (now : ℤ) : CacheEntry :=
  { flags := flags, confidence := confidence, timestamp := now }

/-- The dict returned by `_process_learning_enhancement`. -/
structure EnhancedResult where
  enhanced_flags : PyStr
  enhanced_confidence : ℤ
  enhancement_reasoning : String

/-- `PerformanceOptimizer._update_enhanced_cache`:
`pattern_cache[key].update(enhanced_result)` merges the three
`enhanced_*` keys into the entry (overwriting none of `flags`,
`confidence`, `timestamp`) and sets `enhanced = True`. -/
def updateEnhancedCache (e : CacheEntry) (r : EnhancedResult) : CacheEntry :=
  { e with
    enhanced_flags := some r.enhanced_flags
  , enhanced_confidence := some r.enhanced_confidence
  , enhancement_reasoning := some r.enhancement_reasoning
  , enhanced := true }

/-- `PerformanceOptimizer._get_cached_recommendation` for one entry: a
hit while `now - timestamp < cache_ttl` (1800 s), a miss (with deletion)
afterwards. -/
def getCachedRecommendation (now : ℤ) (e : CacheEntry) : Option CacheEntry :=
  if now - e.timestamp < 1800 then some e else none

/-- The `(flags, confidence)` pair that the cache-hit branch of
`get_quick_recommendation` returns to the caller. -/
def quickFromCacheHit (e : CacheEntry) : PyStr × ℤ :=
  (e.flags, e.confidence)

-- ===================================================================
-- Concrete scenario inputs used by the claims
-- ===================================================================

/-- The claim C1 scenario context: a complex `python_backend` project. -/
def securityScenarioCtx : ProjectContext :=
  { project_type := "python_backend".data, domain := "general".data
  , complexity := "complex".data, file_count := 10 }

/-- A small, non-Python project context. -/
def simpleScenarioCtx : ProjectContext :=
  { project_type := "general".data, domain := "general".data
  , complexity := "simple".data, file_count := 0 }

/-- A closed interaction with recorded execution time, eligible for batch
feedback processing. -/
def sampleBatchInteraction : InteractionRow :=
  { id := 1, timestamp := 0, command := "analyze".data
  , recommended_flags := "--think --uc".data, success := true
  , execution_time := 10, confidence := 90, user_id := "u", project_hash := "p" }

/-- A learned `analyze_general` pattern with empty statistics, last
updated at time 0. -/
def generalLearnedPattern : LearningPattern :=
  { pattern_id := "analyze_general".data, base_flags := "--think --uc".data
  , success_rate := 0, usage_count := 0, confidence_score := 0
  , context_weights := [], last_updated := some 0, user_preference_score := 0 }

/-- A learned pattern whose preference weight contributes a fractional
half-point to the total score, with an unparseable `last_updated`. -/
def halfPointPattern : LearningPattern :=
  { pattern_id := "analyze_general".data, base_flags := "--think --uc".data
  , success_rate := 0, usage_count := 0, confidence_score := 0
  , context_weights := [], last_updated := none, user_preference_score := 1/20 }

/-- A `project_context` dict with no relevant keys. -/
def emptyEngCtx : EngCtx := {}

-- ===================================================================
-- Helper lemmas: substring search, strip, replace
-- ===================================================================

theorem inf_append_right {l s t : PyStr} (h : l <:+: s) : l <:+: s ++ t :=
  h.trans ⟨[], t, by simp⟩

theorem inf_append_left {l s t : PyStr} (h : l <:+: t) : l <:+: s ++ t :=
  h.trans ⟨s, [], by simp⟩

theorem inf_append_self_cons {s pat : PyStr} {c : Char} : pat <:+: s ++ (c :: pat) :=
  inf_append_left (List.infix_cons List.infix_rfl)

theorem pref_append_split {α : Type} {l t : List α} :
    ∀ {s : List α}, l <+: s ++ t → l <+: s ∨ ∃ r, l = s ++ r ∧ r <+: t := by
  induction l with
  | nil => intro s _; left; exact ⟨s, rfl⟩
  | cons a l ih =>
    intro s h
    match s with
    | [] => right; exact ⟨a :: l, rfl, h⟩
    | b :: s' =>
      rw [List.cons_append, List.cons_prefix_cons] at h
      obtain ⟨rfl, h2⟩ := h
      rcases ih h2 with h3 | ⟨r, rfl, h4⟩
      · left; exact List.cons_prefix_cons.mpr ⟨rfl, h3⟩
      · right; exact ⟨r, rfl, h4⟩

theorem inf_append_split {α : Type} {l t : List α} :
    ∀ {s : List α}, l <:+: s ++ t →
      l <:+: s ∨ l <:+: t ∨
        ∃ p₁ p₂, p₁ ≠ [] ∧ p₂ ≠ [] ∧ l = p₁ ++ p₂ ∧ p₁ <:+ s ∧ p₂ <+: t := by
  intro s
  induction s with
  | nil => intro h; right; left; simpa using h
  | cons c s' ih =>
    intro h
    rw [List.cons_append, List.infix_cons_iff] at h
    rcases h with h | h
    · rw [← List.cons_append] at h
      rcases pref_append_split h with h1 | ⟨r, rfl, h2⟩
      · left; exact h1.isInfix
      · match r, h2 with
        | [], _ => left; simp
        | x :: r', h2 =>
          right; right
          exact ⟨c :: s', x :: r', by simp, by simp, rfl, List.suffix_rfl, h2⟩
    · rcases ih h with h1 | h1 | ⟨p₁, p₂, hp₁, hp₂, rfl, hs, hpre⟩
      · left; exact List.infix_cons h1
      · right; left; exact h1
      · right; right
        exact ⟨p₁, p₂, hp₁, hp₂, rfl, hs.trans (List.suffix_cons c s'), hpre⟩

theorem no_cross_of_space_head {pat s u : PyStr} {c : Char}
    (h : pat <:+: s ++ (c :: u)) (hc : c ∉ pat) (hu : ¬ pat <:+: (c :: u)) :
    pat <:+: s := by
  rcases inf_append_split h with h1 | h1 | ⟨p₁, p₂, hp₁, hp₂, heq, hs, hpre⟩
  · exact h1
  · exact absurd h1 hu
  · exfalso
    match p₂, hpre with
    | x :: p₂', hpre =>
      rw [List.cons_prefix_cons] at hpre
      obtain ⟨rfl, -⟩ := hpre
      exact hc (heq ▸ List.mem_append_right p₁ (List.mem_cons_self x p₂'))

theorem inf_dropWhile_of_head {α : Type} (P : α → Bool) :
    ∀ {s pat : List α} (hne : pat ≠ []), P (pat.head hne) = false →
      pat <:+: s → pat <:+: s.dropWhile P := by
  intro s
  induction s with
  | nil =>
    intro pat hne _ h
    rw [List.infix_nil] at h
    exact absurd h hne
  | cons c s' ih =>
    intro pat hne hh h
    by_cases hc : P c
    · rw [List.dropWhile_cons, if_pos hc]
      rcases List.infix_cons_iff.mp h with h1 | h1
      · exfalso
        match pat, h1 with
        | x :: pat', h1 =>
          rw [List.cons_prefix_cons] at h1
          obtain ⟨rfl, -⟩ := h1
          rw [List.head_cons] at hh
          rw [hh] at hc
          simp at hc
      · exact ih hne hh h1
    · rw [List.dropWhile_cons, if_neg hc]
      exact h

theorem head_of_ne_nil_of_infix {pat : PyStr} (hne : pat ≠ []) :
    pat.head hne ∈ pat := List.head_mem hne

theorem inf_pyStrip {pat s : PyStr} (hne : pat ≠ [])
    (hh : isPySpace (pat.head hne) = false)
    (hl : isPySpace (pat.getLast hne) = false)
    (h : pat <:+: s) : pat <:+: pyStrip s := by
  have h1 : pat <:+: s.dropWhile isPySpace := inf_dropWhile_of_head isPySpace hne hh h
  have h2 : pat.reverse <:+: (s.dropWhile isPySpace).reverse := h1.reverse
  have hne' : pat.reverse ≠ [] := by simpa using hne
  have hh' : isPySpace (pat.reverse.head hne') = false := by
    rwa [List.head_reverse]
  have h3 : pat.reverse <:+: ((s.dropWhile isPySpace).reverse).dropWhile isPySpace :=
    inf_dropWhile_of_head isPySpace hne' hh' h2
  have h4 := h3.reverse
  rw [List.reverse_reverse] at h4
  exact h4

theorem dropWhile_eq_self_of_head {α : Type} (P : α → Bool) (l : List α)
    (h : ∀ hne : l ≠ [], P (l.head hne) = false) : l.dropWhile P = l := by
  match l with
  | [] => rfl
  | c :: l' =>
    rw [List.dropWhile_cons, if_neg]
    have := h (by simp)
    rw [List.head_cons] at this
    simp [this]

theorem head_eq_of_pref {α : Type} {p l : List α} (h : p <+: l) (hne : p ≠ []) :
    ∀ hne' : l ≠ [], p.head hne = l.head hne' := by
  intro hne'
  obtain ⟨t, rfl⟩ := h
  match p with
  | x :: p' => simp

theorem pyStrip_of_head (m : PyStr)
    (hm : ∀ hne : m ≠ [], isPySpace (m.head hne) = false) :
    pyStrip ((m.reverse.dropWhile isPySpace).reverse) =
      (m.reverse.dropWhile isPySpace).reverse := by
  have hXm : ((m.reverse.dropWhile isPySpace).reverse) <+: m := by
    obtain ⟨t, ht⟩ := List.dropWhile_suffix (l := m.reverse) isPySpace
    refine ⟨t.reverse, ?_⟩
    have := congrArg List.reverse ht
    simpa using this
  have step1 : ((m.reverse.dropWhile isPySpace).reverse).dropWhile isPySpace
      = (m.reverse.dropWhile isPySpace).reverse := by
    refine dropWhile_eq_self_of_head isPySpace _ ?_
    intro hne
    have hmne : m ≠ [] := by
      intro hcon
      subst hcon
      simp at hne
    rw [head_eq_of_pref hXm hne hmne]
    exact hm hmne
  unfold pyStrip
  rw [step1, List.reverse_reverse, List.dropWhile_idempotent]

theorem pyStrip_idem (s : PyStr) : pyStrip (pyStrip s) = pyStrip s := by
  have h := pyStrip_of_head (s.dropWhile isPySpace) ?_
  · exact h
  · intro hne
    exact List.head_dropWhile_not isPySpace s hne

theorem rep_inf_replaceAllGo {p : Char} {ps rep : PyStr} :
    ∀ (fuel : ℕ) (s : PyStr), s.length ≤ fuel → (p :: ps) <:+: s →
      rep <:+: replaceAllGo p ps rep fuel s := by
  intro fuel
  induction fuel with
  | zero =>
    intro s hlen h
    have : s = [] := List.length_eq_zero.mp (Nat.le_zero.mp hlen)
    subst this
    simp at h
  | succ fuel ih =>
    intro s hlen h
    match s with
    | [] => simp at h
    | c :: rest =>
      rw [replaceAllGo]
      by_cases hpre : (p :: ps).isPrefixOf (c :: rest)
      · rw [if_pos hpre]
        exact (List.prefix_append rep _).isInfix
      · rw [if_neg hpre]
        have h2 : (p :: ps) <:+: rest := by
          rcases List.infix_cons_iff.mp h with h1 | h1
          · exact absurd (by simpa using h1) hpre
          · exact h1
        have hlen2 : rest.length ≤ fuel := by
          simpa using Nat.lt_succ_iff.mp (by simpa using Nat.lt_of_lt_of_le (by simp) hlen)
        exact List.infix_cons (ih rest hlen2 h2)

theorem rep_inf_replaceAll {s pat rep : PyStr} (hpat : pat ≠ []) (h : pat <:+: s) :
    rep <:+: replaceAll s pat rep := by
  match pat, hpat with
  | p :: ps, _ => exact rep_inf_replaceAllGo s.length s le_rfl h

theorem guardAppend_inf_self (cond : Prop) [Decidable cond] (pat f : PyStr)
    (hc : cond) : pat <:+: guardAppend cond pat f := by
  unfold guardAppend
  split
  · exact inf_append_self_cons
  · rename_i hn
    rcases not_and_or.mp hn with h1 | h1
    · exact absurd hc h1
    · exact not_not.mp h1

theorem guardAppend_inf_mono (cond : Prop) [Decidable cond] (pat : PyStr) {q f : PyStr}
    (h : q <:+: f) : q <:+: guardAppend cond pat f := by
  unfold guardAppend
  split
  · exact inf_append_right h
  · exact h

theorem guardAppend_no_op (cond : Prop) [Decidable cond] (pat f : PyStr)
    (h : cond → pat <:+: f) : guardAppend cond pat f = f := by
  unfold guardAppend
  rw [if_neg]
  intro hcon
  exact hcon.2 (h hcon.1)

theorem guardAppend_chain_idem (c1 c2 c3 c4 : Prop)
    [Decidable c1] [Decidable c2] [Decidable c3] [Decidable c4]
    (p1 p2 p3 p4 : PyStr)
    (hn1 : p1 ≠ []) (hh1 : isPySpace (p1.head hn1) = false)
    (hl1 : isPySpace (p1.getLast hn1) = false)
    (hn2 : p2 ≠ []) (hh2 : isPySpace (p2.head hn2) = false)
    (hl2 : isPySpace (p2.getLast hn2) = false)
    (hn3 : p3 ≠ []) (hh3 : isPySpace (p3.head hn3) = false)
    (hl3 : isPySpace (p3.getLast hn3) = false)
    (hn4 : p4 ≠ []) (hh4 : isPySpace (p4.head hn4) = false)
    (hl4 : isPySpace (p4.getLast hn4) = false)
    (b : PyStr) :
    pyStrip (guardAppend c4 p4 (guardAppend c3 p3 (guardAppend c2 p2 (guardAppend c1 p1
      (pyStrip (guardAppend c4 p4 (guardAppend c3 p3 (guardAppend c2 p2
        (guardAppend c1 p1 b))))))))) =
      pyStrip (guardAppend c4 p4 (guardAppend c3 p3 (guardAppend c2 p2
        (guardAppend c1 p1 b)))) := by
  have h1 : c1 → p1 <:+: pyStrip (guardAppend c4 p4 (guardAppend c3 p3 (guardAppend c2 p2
      (guardAppend c1 p1 b)))) := by
    intro hc
    refine inf_pyStrip hn1 hh1 hl1 ?_
    exact guardAppend_inf_mono _ _ (guardAppend_inf_mono _ _ (guardAppend_inf_mono _ _
      (guardAppend_inf_self _ _ _ hc)))
  have h2 : c2 → p2 <:+: pyStrip (guardAppend c4 p4 (guardAppend c3 p3 (guardAppend c2 p2
      (guardAppend c1 p1 b)))) := by
    intro hc
    refine inf_pyStrip hn2 hh2 hl2 ?_
    exact guardAppend_inf_mono _ _ (guardAppend_inf_mono _ _ (guardAppend_inf_self _ _ _ hc))
  have h3 : c3 → p3 <:+: pyStrip (guardAppend c4 p4 (guardAppend c3 p3 (guardAppend c2 p2
      (guardAppend c1 p1 b)))) := by
    intro hc
    refine inf_pyStrip hn3 hh3 hl3 ?_
    exact guardAppend_inf_mono _ _ (guardAppend_inf_self _ _ _ hc)
  have h4 : c4 → p4 <:+: pyStrip (guardAppend c4 p4 (guardAppend c3 p3 (guardAppend c2 p2
      (guardAppend c1 p1 b)))) := by
    intro hc
    refine inf_pyStrip hn4 hh4 hl4 ?_
    exact guardAppend_inf_self _ _ _ hc
  rw [guardAppend_no_op c1 _ _ h1, guardAppend_no_op c2 _ _ h2,
    guardAppend_no_op c3 _ _ h3, guardAppend_no_op c4 _ _ h4, pyStrip_idem]

theorem adjustFlagsLE_idem (b : PyStr) (ctx : EngCtx) :
    adjustFlagsLE (adjustFlagsLE b ctx) ctx = adjustFlagsLE b ctx := by
  show pyStrip _ = pyStrip _
  exact guardAppend_chain_idem _ _ _ _ _ _ _ _
    (by decide) (by decide) (by decide)
    (by decide) (by decide) (by decide)
    (by decide) (by decide) (by decide)
    (by decide) (by decide) (by decide) b

theorem thinkReplaceStep_hard (K : Prop) [Decidable K] (f : PyStr) (hK : K)
    (ht : "--think".data <:+: thinkReplaceStep K f) :
    "--think-hard".data <:+: thinkReplaceStep K f := by
  unfold thinkReplaceStep at ht ⊢
  by_cases hc : K ∧ "--think".data <:+: f ∧ ¬ ("--think-hard".data <:+: f)
  · rw [if_pos hc]
    exact rep_inf_replaceAll (by decide) hc.2.1
  · rw [if_neg hc] at ht ⊢
    rcases not_and_or.mp hc with h | h
    · exact absurd hK h
    rcases not_and_or.mp h with h | h
    · exact absurd ht h
    · exact not_not.mp h

theorem guardAppend_preserves_no_space {cond : Prop} [Decidable cond] {pat q f : PyStr}
    (h : q <:+: guardAppend cond pat f) (hq : ' ' ∉ q)
    (hqp : ¬ (q <:+: (' ' :: pat))) : q <:+: f := by
  unfold guardAppend at h
  split at h
  · exact no_cross_of_space_head h hq hqp
  · exact h

theorem adjustFlagsPO_idem (b : PyStr) (ctx : OptCtx) :
    adjustFlagsPO (adjustFlagsPO b ctx) ctx = adjustFlagsPO b ctx := by
  unfold adjustFlagsPO
  generalize hy : thinkReplaceStep (ctx.complexity.getD "moderate".data = "complex".data)
    b = g
  generalize hz : guardAppend (ctx.file_count.getD 0 > 50) "--delegate".data g = y
  have hth : (ctx.complexity.getD "moderate".data = "complex".data) →
      "--think".data <:+: y → "--think-hard".data <:+: y := by
    intro hK hty
    have htg : "--think".data <:+: g :=
      guardAppend_preserves_no_space (hz ▸ hty) (by decide) (by decide)
    have := thinkReplaceStep_hard _ b hK (hy ▸ htg)
    rw [hy] at this
    subst hz
    exact guardAppend_inf_mono _ _ this
  have hdel : (ctx.file_count.getD 0 > 50) → "--delegate".data <:+: y := by
    intro hF
    subst hz
    exact guardAppend_inf_self _ _ _ hF
  have e1 : thinkReplaceStep (ctx.complexity.getD "moderate".data = "complex".data) y
      = y := by
    unfold thinkReplaceStep
    rw [if_neg]
    intro hcon
    exact hcon.2.2 (hth hcon.1 hcon.2.1)
  rw [e1]
  exact guardAppend_no_op _ _ y hdel

-- ===================================================================
-- Supporting lemmas for the claims
-- ===================================================================

theorem foldl_enhance_core (updates : List EnhancedResult) :
    ∀ e : CacheEntry,
      (updates.foldl updateEnhancedCache e).flags = e.flags ∧
      (updates.foldl updateEnhancedCache e).confidence = e.confidence := by
  induction updates with
  | nil => intro e; exact ⟨rfl, rfl⟩
  | cons u us ih =>
    intro e
    rw [List.foldl_cons]
    refine ⟨(ih (updateEnhancedCache e u)).1.trans rfl, (ih (updateEnhancedCache e u)).2.trans rfl⟩

theorem iterateSuccess_spec (t s : ℕ) (q : ℚ) (hq : q = (s : ℚ) / (t : ℚ)) :
    ∀ n : ℕ, iterateSuccess ⟨t, s, q⟩ n =
      ⟨t + n, s + n, ((s + n : ℕ) : ℚ) / ((t + n : ℕ) : ℚ)⟩ := by
  intro n
  induction n with
  | zero => simp [iterateSuccess, hq]
  | succ n ih =>
    unfold iterateSuccess at ih ⊢
    rw [Function.iterate_succ_apply', ih]
    simp only [updatePatternSuccess, if_pos]
    congr 1

-- ===================================================================
-- Claim theorems
-- ===================================================================

/-- Claim C1: for the input `"analyze find security vulnerabilities"` in a
complex `python_backend` context, `find_best_match` returns flags
containing the security persona and the elevated `--think-hard` flag —
but its confidence is 80, not the ≥ 85 demanded by the claim and by the
repository's own `comprehensive_integration_test`
(`expected_confidence_min: 85` for this exact input): only the keyword
`security` matches, since `vulnerability` is not a substring of
`vulnerabilities`, so the score is 1/5 and the confidence is
`int(95·(0.5 + 0.7·0.5)) = 80`. -/
theorem claim_c1_security_scenario :
    findBestMatch defaultRules "analyze".data "find security vulnerabilities".data
        securityScenarioCtx =
      { flags := "--persona-security --focus security --think-hard --validate --uc".data
      , confidence := 80
      , mcp_servers := ["Sequential".data]
      , personas := ["security".data] } ∧
    "--persona-security".data <:+:
      (findBestMatch defaultRules "analyze".data "find security vulnerabilities".data
        securityScenarioCtx).flags ∧
    "--think-hard".data <:+:
      (findBestMatch defaultRules "analyze".data "find security vulnerabilities".data
        securityScenarioCtx).flags ∧
    (findBestMatch defaultRules "analyze".data "find security vulnerabilities".data
        securityScenarioCtx).confidence < 85 := by
  have heval : findBestMatch defaultRules "analyze".data
      "find security vulnerabilities".data securityScenarioCtx =
      { flags := "--persona-security --focus security --think-hard --validate --uc".data
      , confidence := 80
      , mcp_servers := ["Sequential".data]
      , personas := ["security".data] } := by
    have horch : List.find? (fun op => seqMatches op.alts1 op.alts2
        (pyLower ("analyze".data ++ " ".data ++ "find security vulnerabilities".data)))
        orchestratorPatterns = none := by decide
    have hprio : findPriorityMatch defaultRules
        (pyLower ("analyze".data ++ " ".data ++ "find security vulnerabilities".data))
        = some (analyzeSecurityRule, 1/5 + 1/2) := by
      simp +decide [findPriorityMatch, findPriorityMatchAux, priorityPatternNames,
        calcMatchScore, defaultRules, analyzeGeneralRule, analyzeSecurityRule]
    have h80 : (⌊(95 * (1/2 + ((1:ℚ)/5 + 1/2) * (1/2)) : ℚ)⌋ : ℤ) = 80 := by
      rw [Int.floor_eq_iff]
      norm_num
    simp only [findBestMatch, horch, hprio, buildRuleRecommendation]
    simp only [FlagRecommendation.mk.injEq]
    refine ⟨by decide, ?_, by decide, by decide⟩
    simp only [analyzeSecurityRule, pyInt]
    norm_num [h80]
  refine ⟨heval, ?_, ?_, ?_⟩ <;> rw [heval] <;> decide

/-- Claim C2: both public feedback operations raise `NameError` on every
call — `feedback_processor.py` never imports `os`, yet the
`FeedbackRecord` construction in each operation evaluates `os.getcwd()`.
No internal failure is converted to a safe default; the exception crosses
the public boundary unconditionally. -/
theorem claim_c2_feedback_raises :
    (∀ (now : ℤ) (interactions : List InteractionRow) (interaction_id : String)
        (success : Bool) (execution_time : ℚ) (error_details : Option String),
      processImmediateFeedback now interactions interaction_id success execution_time
          error_details = .error (.nameError "os")) ∧
    (∀ (now : ℤ) (interaction_id : String) (user_rating : ℤ)
        (user_correction : Option String),
      processExplicitFeedback now interaction_id user_rating user_correction =
        .error (.nameError "os")) :=
  ⟨fun _ _ _ _ _ _ => rfl, fun _ _ _ _ => rfl⟩

/-- Claim C3: `get_user_interactions` wraps no handler around its sqlite
calls, so a corrupted or unreadable backing file makes it propagate the
storage exception to the caller instead of returning an empty list. -/
theorem claim_c3_corrupt_storage_raises (user_id : String) (since : ℤ) :
    getUserInteractions .corrupted user_id since = .error .databaseError :=
  rfl

/-- Claim C5: batch feedback processing is not idempotent across runs:
`_is_feedback_processed` is a stub returning `False`, and a run persists
nothing, so a second run over the same window re-processes every eligible
interaction and re-derives the same non-empty pattern adjustments. -/
theorem claim_c5_batch_reprocesses :
    isFeedbackProcessed (toString sampleBatchInteraction.id) = false ∧
    processBatchFeedback 0 [sampleBatchInteraction] ≠ [] ∧
    ∀ fb ∈ processBatchFeedback 0 [sampleBatchInteraction],
      fb.pattern_adjustments ≠ [] := by
  have h10 : ¬ (sampleBatchInteraction.execution_time = 0) := by
    norm_num [sampleBatchInteraction]
  refine ⟨rfl, ?_, ?_⟩
  · simp [processBatchFeedback, isFeedbackProcessed, analyzeInteractionForBatch,
      if_neg h10]
  · intro fb hfb
    simp [processBatchFeedback, isFeedbackProcessed, analyzeInteractionForBatch,
      if_neg h10] at hfb
    subst hfb
    simp [createBatchProcessedFeedback]

/-- Claim C7: `update_pattern_success` maintains
`successful_uses ≤ total_uses` and `success_rate = successful/total` on
every update (existing or fresh row); a successful update never decreases
the stored rate, the rate stays bounded by 1, and repeated successful
updates drive it arbitrarily close to 1. -/
theorem claim_c7_pattern_success (r : PatternSuccess)
    (hst : r.successful_uses ≤ r.total_uses)
    (hrate : r.success_rate = (r.successful_uses : ℚ) / (r.total_uses : ℚ)) :
    (∀ b : Bool, psInv (updatePatternSuccess (some r) b) ∧
      psInv (updatePatternSuccess none b)) ∧
    r.success_rate ≤ (updatePatternSuccess (some r) true).success_rate ∧
    (updatePatternSuccess (some r) true).success_rate ≤ 1 ∧
    (∀ ε : ℚ, 0 < ε → ∃ n : ℕ, 1 - (iterateSuccess r n).success_rate < ε) := by
  obtain ⟨t, s, q⟩ := r
  simp only at hst hrate
  subst hrate
  refine ⟨?_, ?_, ?_, ?_⟩
  · intro b
    constructor
    · cases b <;> simp [updatePatternSuccess, psInv] <;> omega
    · cases b <;> simp [updatePatternSuccess, psInv]
  · simp only [updatePatternSuccess, if_pos]
    match t, hst with
    | 0, hst =>
      interval_cases s
      norm_num
    | t + 1, hst =>
      have hstq : (s : ℚ) ≤ (t : ℚ) + 1 := by exact_mod_cast hst
      rw [div_le_div_iff₀ (by exact_mod_cast Nat.succ_pos t)
        (by exact_mod_cast Nat.succ_pos (t + 1))]
      push_cast
      nlinarith [hstq]
  · simp only [updatePatternSuccess, if_pos]
    rw [div_le_one (by exact_mod_cast Nat.succ_pos t)]
    exact_mod_cast Nat.succ_le_succ hst
  · intro ε hε
    refine ⟨(⌈(t : ℚ) / ε⌉).toNat + 1, ?_⟩
    rw [iterateSuccess_spec t s _ rfl]
    simp only
    set n : ℕ := (⌈(t : ℚ) / ε⌉).toNat + 1 with hn
    have hnpos : 0 < (n : ℚ) := by positivity
    have htn : (0 : ℚ) < (t : ℚ) + (n : ℚ) := by positivity
    have hkey : 1 - ((s + n : ℕ) : ℚ) / ((t + n : ℕ) : ℚ) =
        ((t : ℚ) - (s : ℚ)) / ((t : ℚ) + (n : ℚ)) := by
      push_cast
      field_simp
    rw [hkey, div_lt_iff₀ htn]
    have hne : (t : ℚ) / ε < (n : ℚ) := by
      have h1 : ((t : ℚ)) / ε ≤ (⌈(t : ℚ) / ε⌉ : ℚ) := Int.le_ceil _
      have h2 : (0 : ℤ) ≤ ⌈(t : ℚ) / ε⌉ := by
        refine Int.ceil_nonneg ?_
        positivity
      have h3 : ((⌈(t : ℚ) / ε⌉.toNat : ℤ) : ℚ) = ((⌈(t : ℚ) / ε⌉ : ℤ) : ℚ) := by
        rw [Int.toNat_of_nonneg h2]
      have h5 : ((n : ℕ) : ℚ) = ((⌈(t : ℚ) / ε⌉.toNat : ℕ) : ℚ) + 1 := by
        rw [hn]
        push_cast
        ring
      rw [h5]
      push_cast at h3 ⊢
      linarith
    have h4 : (t : ℚ) < ε * (n : ℚ) := by
      have := (div_lt_iff₀ hε).mp hne
      linarith
    nlinarith [Nat.cast_nonneg (α := ℚ) s, Nat.cast_nonneg (α := ℚ) t,
      mul_nonneg hε.le (Nat.cast_nonneg (α := ℚ) t)]

/-- Claim C8 (counterexample): the preprocessor's
`_apply_context_modifiers` is not idempotent — it unconditionally appends
`--uc`, so a second application duplicates it. -/
theorem claim_c8_counterexample :
    applyContextModifiers
        (applyContextModifiers "--think".data simpleScenarioCtx) simpleScenarioCtx ≠
      applyContextModifiers "--think".data simpleScenarioCtx := by
  decide

/-- Claim C8 (amended): the learning engine's and the performance
optimizer's context-specific flag adjustments are idempotent — applying
either twice yields the same flag string as applying it once.  (The
preprocessor's `_apply_context_modifiers` is excluded: it appends `--uc`
unconditionally and is refuted by the counterexample.) -/
theorem claim_c8_adjusters_idem :
    (∀ (flags : PyStr) (ctx : EngCtx),
      adjustFlagsLE (adjustFlagsLE flags ctx) ctx = adjustFlagsLE flags ctx) ∧
    (∀ (flags : PyStr) (ctx : OptCtx),
      adjustFlagsPO (adjustFlagsPO flags ctx) ctx = adjustFlagsPO flags ctx) :=
  ⟨adjustFlagsLE_idem, adjustFlagsPO_idem⟩

/-- Claim C9: a cache hit within the 1800-second TTL returns exactly the
`flags` and `confidence` stored by the original computation for the key,
no matter how often the background enhancement worker has updated the
entry in place (the enhancement merges only `enhanced_*` keys). -/
theorem claim_c9_cache_hit_stable (flags : PyStr) (conf ts now : ℤ)
    (updates : List EnhancedResult) (e' : CacheEntry)
    (h : getCachedRecommendation now
        (updates.foldl updateEnhancedCache (cacheRecommendation flags conf ts)) =
      some e') :
    quickFromCacheHit e' = (flags, conf) := by
  unfold getCachedRecommendation at h
  split at h
  · injection h with h2
    subst h2
    unfold quickFromCacheHit
    rw [(foldl_enhance_core updates _).1, (foldl_enhance_core updates _).2]
    rfl
  · cases h

/-- Claim C9 witness: a concrete entry cached at time 0, enhanced once in
the background, and read back at time 100. -/
theorem claim_c9_witness :
    quickFromCacheHit
        (([⟨"--enhanced".data, 95, "done"⟩] : List EnhancedResult).foldl
          updateEnhancedCache (cacheRecommendation "--think --uc".data 80 0)) =
      ("--think --uc".data, 80) :=
  claim_c9_cache_hit_stable "--think --uc".data 80 0 100
    [⟨"--enhanced".data, 95, "done"⟩]
    (([⟨"--enhanced".data, 95, "done"⟩] : List EnhancedResult).foldl
      updateEnhancedCache (cacheRecommendation "--think --uc".data 80 0))
    (by rfl)

/-- Claim C10: `SCCommandProcessor.process` returns any input whose
stripped form does not start with `/sc:` unchanged, whatever the
enhancement branch would do. -/
theorem claim_c10_identity (enhance : PyStr → Option PyStr) (input : PyStr)
    (h : "/sc:".data.isPrefixOf (pyStrip input) = false) :
    scProcess enhance input = input := by
  unfold scProcess
  rw [if_neg]
  simp [h]

/-- Claim C10 witness: a plain prompt passes through unchanged. -/
theorem claim_c10_witness :
    scProcess (fun _ => none) "hello world".data = "hello world".data :=
  claim_c10_identity (fun _ => none) "hello world".data (by decide)

/-- Claim C7 witness: the invariants, monotonicity, bound and limit at
the concrete row `{total_uses := 2, successful_uses := 1,
success_rate := 1/2}`. -/
theorem claim_c7_witness :
    (∀ b : Bool, psInv (updatePatternSuccess (some ⟨2, 1, 1/2⟩) b) ∧
      psInv (updatePatternSuccess none b)) ∧
    (⟨2, 1, 1/2⟩ : PatternSuccess).success_rate ≤
      (updatePatternSuccess (some ⟨2, 1, 1/2⟩) true).success_rate ∧
    (updatePatternSuccess (some ⟨2, 1, 1/2⟩) true).success_rate ≤ 1 ∧
    (∀ ε : ℚ, 0 < ε → ∃ n : ℕ,
      1 - (iterateSuccess ⟨2, 1, 1/2⟩ n).success_rate < ε) :=
  claim_c7_pattern_success ⟨2, 1, 1/2⟩ (by norm_num) (by norm_num)

/-- Claim C4 (counterexample): at a pattern whose total score is 15.5 the
source returns `min(95, int(15.5)) = 15`, not the claimed
`min(95, round(15.5)) = 16`: `int()` truncates, it does not round. -/
theorem claim_c4_counterexample :
    (calcAdaptiveScore 0 halfPointPattern emptyEngCtx).confidence ≠
      specConfidence (calcAdaptiveScore 0 halfPointPattern emptyEngCtx).score := by
  have hsim : contextSimilarity ([] : List (PyStr × ℚ)) emptyEngCtx = 1/2 := by
    norm_num [contextSimilarity]
  have hX : (((0 : ℚ) * 40 + min ((1 : ℚ)/20) 2 * 10 + (1/2) * 20 + 0 * 10 : ℚ) : ℝ) +
      (1/2 : ℝ) * 10 = 31/2 := by
    norm_num
  have hf : (⌊(31/2 : ℝ)⌋ : ℤ) = 15 := by
    rw [Int.floor_eq_iff]
    norm_num
  have hr : round ((31 : ℝ)/2) = 16 := by
    rw [round_eq, Int.floor_eq_iff]
    norm_num
  simp only [calcAdaptiveScore, halfPointPattern, specConfidence, hsim, recencyScore,
    pyIntR]
  norm_num [hf, hr]

/-- Claim C4 (amended): for every scored pattern whose stored
`confidence_score` was produced by `_calculate_confidence_score` (as
`_load_patterns_cache` does) and whose success rate lies in `[0, 1]`, the
total score is exactly
`success_rate·40 + min(preference, 2)·10 + context_similarity·20 +
(success_rate · min(usage/20, 1))·10 + recency·10`, and the returned
confidence is `min(95, int(total_score))`, where `int` truncates toward
zero (the source uses `int`, not `round`). -/
theorem claim_c4_amended (now : ℤ) (p : LearningPattern) (ctx : EngCtx)
    (h1 : p.success_rate ≤ 1)
    (hc : p.confidence_score = calcConfidenceScore p.usage_count p.success_rate) :
    (calcAdaptiveScore now p ctx).score =
      ((p.success_rate * 40 + min p.user_preference_score 2 * 10 +
        contextSimilarity p.context_weights ctx * 20 +
        (p.success_rate * min ((p.usage_count : ℚ) / 20) 1) * 10 : ℚ) : ℝ) +
      recencyScore now p.last_updated * 10 ∧
    (calcAdaptiveScore now p ctx).confidence =
      min 95 (pyIntR ((calcAdaptiveScore now p ctx).score)) := by
  have hcs : calcConfidenceScore p.usage_count p.success_rate =
      p.success_rate * min ((p.usage_count : ℚ) / 20) 1 := by
    unfold calcConfidenceScore
    apply min_eq_left
    exact mul_le_one₀ h1 (le_min (by positivity) zero_le_one) (min_le_right _ _)
  constructor
  · simp [calcAdaptiveScore, hc, hcs]
  · rfl

/-- Claim C4 (amended) witness: the formula and the truncating confidence
at the concrete half-point pattern. -/
theorem claim_c4_witness :
    (calcAdaptiveScore 0 halfPointPattern emptyEngCtx).score =
      ((halfPointPattern.success_rate * 40 +
        min halfPointPattern.user_preference_score 2 * 10 +
        contextSimilarity halfPointPattern.context_weights emptyEngCtx * 20 +
        (halfPointPattern.success_rate *
          min ((halfPointPattern.usage_count : ℚ) / 20) 1) * 10 : ℚ) : ℝ) +
      recencyScore 0 halfPointPattern.last_updated * 10 ∧
    (calcAdaptiveScore 0 halfPointPattern emptyEngCtx).confidence =
      min 95 (pyIntR ((calcAdaptiveScore 0 halfPointPattern emptyEngCtx).score)) :=
  claim_c4_amended 0 halfPointPattern emptyEngCtx (by norm_num [halfPointPattern])
    (by norm_num [halfPointPattern, calcConfidenceScore])

theorem mem_of_mem_foldl_dictInsert (S : List LearningPattern) :
    ∀ (l acc : List LearningPattern), (∀ x ∈ acc, x ∈ S) → (∀ x ∈ l, x ∈ S) →
      ∀ x ∈ l.foldl dictInsertPattern acc, x ∈ S := by
  intro l
  induction l with
  | nil => intro acc hacc _ x hx; exact hacc x hx
  | cons q l ih =>
    intro acc hacc hl x hx
    rw [List.foldl_cons] at hx
    refine ih _ ?_ (fun y hy => hl y (List.mem_cons_of_mem _ hy)) x hx
    intro y hy
    unfold dictInsertPattern at hy
    split at hy
    · rcases List.mem_map.mp hy with ⟨z, hz, hzy⟩
      by_cases hc : z.pattern_id == q.pattern_id
      · rw [if_pos hc] at hzy
        subst hzy
        exact hl _ (List.mem_cons_self _ _)
      · rw [if_neg hc] at hzy
        subst hzy
        exact hacc _ hz
    · rcases List.mem_append.mp hy with h | h
      · exact hacc y h
      · rw [List.mem_singleton] at h
        subst h
        exact hl y (List.mem_cons_self _ _)

theorem mem_of_mem_findCandidatePatterns {patterns : List LearningPattern}
    {command : PyStr} {ctx : EngCtx} {p : LearningPattern}
    (hp : p ∈ findCandidatePatterns patterns command ctx) : p ∈ patterns := by
  unfold findCandidatePatterns at hp
  refine mem_of_mem_foldl_dictInsert patterns _ [] (by simp) ?_ p hp
  intro x hx
  rcases List.mem_append.mp hx with h | h
  · exact (List.mem_filter.mp h).1
  · exact (List.mem_filter.mp h).1

/-- Claim C6 (amended): the engine's output is a pure function of the
loaded pattern snapshot, the input, and the clock reading used for
recency — two calls with identical snapshot and input agree whenever
their clock readings give every pattern the same recency branch, in
particular whenever both calls fall within 30 days of every pattern's
last update. -/
theorem claim_c6_amended (patterns : List LearningPattern)
    (command description : PyStr) (ctx : EngCtx) (now₁ now₂ : ℤ)
    (h : ∀ p ∈ patterns, ∀ t, p.last_updated = some t →
      now₁ - t ≤ 30 ∧ now₂ - t ≤ 30) :
    getAdaptiveRecommendation now₁ patterns command description ctx =
      getAdaptiveRecommendation now₂ patterns command description ctx := by
  have hrec : ∀ p ∈ patterns,
      recencyScore now₁ p.last_updated = recencyScore now₂ p.last_updated := by
    intro p hp
    cases hlu : p.last_updated with
    | none => rfl
    | some t =>
      obtain ⟨ha, hb⟩ := h p hp t hlu
      simp only [recencyScore]
      rw [if_pos ha, if_pos hb]
  have hcalc : ∀ p ∈ findCandidatePatterns patterns command ctx,
      calcAdaptiveScore now₁ p ctx = calcAdaptiveScore now₂ p ctx := by
    intro p hp
    have hmem : p ∈ patterns := mem_of_mem_findCandidatePatterns hp
    simp [calcAdaptiveScore, hrec p hmem]
  unfold getAdaptiveRecommendation
  rw [List.map_congr_left hcalc]

/-- Claim C6 (amended) witness: for a snapshot last updated at time 0,
calls at times 5 and 10 (both within 30 days) coincide. -/
theorem claim_c6_witness :
    getAdaptiveRecommendation 5 [generalLearnedPattern] "analyze".data "".data
        emptyEngCtx =
      getAdaptiveRecommendation 10 [generalLearnedPattern] "analyze".data "".data
        emptyEngCtx :=
  claim_c6_amended [generalLearnedPattern] "analyze".data "".data emptyEngCtx 5 10
    (by
      intro p hp t ht
      rw [List.mem_singleton] at hp
      subst hp
      have h0 : (some (0 : ℤ)) = some t := ht
      injection h0 with h1
      subst h1
      norm_num)

/-- Claim C6 (counterexample): the engine is not a pure function of
stored state and input alone — `_calculate_recency_score` reads the
clock, so two calls with the identical snapshot and input, one at day 0
and one at day 1000 after the pattern's last update, return different
confidences (20 versus 10). -/
theorem claim_c6_counterexample :
    getAdaptiveRecommendation 0 [generalLearnedPattern] "analyze".data "".data
        emptyEngCtx ≠
      getAdaptiveRecommendation 1000 [generalLearnedPattern] "analyze".data "".data
        emptyEngCtx := by
  have hcand : findCandidatePatterns [generalLearnedPattern] "analyze".data emptyEngCtx
      = [generalLearnedPattern] := by
    simp +decide [findCandidatePatterns, generalLearnedPattern, contextSimilarity,
      dictInsertPattern]
  have hconf : ∀ now : ℤ,
      (getAdaptiveRecommendation now [generalLearnedPattern] "analyze".data "".data
        emptyEngCtx).confidence =
      (calcAdaptiveScore now generalLearnedPattern emptyEngCtx).confidence := by
    intro now
    unfold getAdaptiveRecommendation
    rw [hcand]
    simp [pickBestScore]
  have hsim : contextSimilarity ([] : List (PyStr × ℚ)) emptyEngCtx = 1/2 := by
    norm_num [contextSimilarity]
  have hc0 : (calcAdaptiveScore 0 generalLearnedPattern emptyEngCtx).confidence = 20 := by
    have hrec0 : recencyScore 0 (some 0) = 1 := by
      simp [recencyScore]
    have hfloor : (⌊(20 : ℝ)⌋ : ℤ) = 20 := by
      rw [Int.floor_eq_iff]
      norm_num
    simp only [calcAdaptiveScore, generalLearnedPattern, hsim, hrec0, pyIntR]
    norm_num [hfloor]
  have hexp : Real.exp (-(50/3 : ℝ)) * 10 < 1 := by
    have h1 : (50/3 : ℝ) + 1 ≤ Real.exp ((50/3 : ℝ)) := Real.add_one_le_exp _
    have h2 : (10 : ℝ) < Real.exp ((50/3 : ℝ)) := by
      linarith
    have h3 : Real.exp (-(50/3 : ℝ)) < 1/10 := by
      rw [Real.exp_neg, show (1/10 : ℝ) = (10 : ℝ)⁻¹ by norm_num]
      exact (inv_lt_inv₀ (Real.exp_pos _) (by norm_num)).mpr h2
    linarith
  have hexppos : (0 : ℝ) < Real.exp (-(50/3 : ℝ)) * 10 := by positivity
  have hfloor0 : (⌊Real.exp (-(50/3 : ℝ)) * 10⌋ : ℤ) = 0 := by
    rw [Int.floor_eq_zero_iff]
    exact Set.mem_Ico.mpr ⟨hexppos.le, hexp⟩
  have hc1000 : (calcAdaptiveScore 1000 generalLearnedPattern emptyEngCtx).confidence
      = 10 := by
    have hrec : recencyScore 1000 (some 0) = Real.exp (-(1000 : ℝ)/60) := by
      simp only [recencyScore]
      rw [if_neg (by norm_num)]
      norm_num
    simp only [calcAdaptiveScore, generalLearnedPattern, hsim, hrec, pyIntR]
    rw [if_neg (by rw [not_lt]; norm_num; positivity)]
    norm_num [hfloor0]
  intro heq
  have := congrArg RecommendationScore.confidence heq
  rw [hconf 0, hconf 1000, hc0, hc1000] at this
  exact absurd this (by norm_num)
